import Mathlib

/-!
Verification of `examples/bottomhalf.c`: a split top-half/bottom-half GPIO
interrupt module.  Two button lines (17 "on", 18 "off") drive one LED line
(4) through an interrupt service routine; slow work is deferred to a
workqueue item.  The definitions below are a shallow embedding of the C
source: the ISR `button_isr`, the staged initialisation `bottomhalf_init`
(in both of its conditional-compilation variants) as a trace of resource
events driven by an environment of collaborator results, and the teardown
`bottomhalf_exit`.
-/

/-- GPIO configuration flags, as used in the source's `struct gpio` arrays. -/
inductive GpioFlags
  | GPIOF_IN
  | GPIOF_OUT_INIT_LOW
  | GPIOF_OUT_INIT_HIGH
  deriving DecidableEq

/-- One entry of a `struct gpio` array: line number, flags, label. -/
structure Gpio where
  gpio : Nat
  flags : GpioFlags
  label : String
  deriving DecidableEq

/-- The source's `leds` array: `{ { 4, GPIOF_OUT_INIT_LOW, "LED 1" } }`. -/
def leds : List Gpio := [⟨4, GpioFlags.GPIOF_OUT_INIT_LOW, "LED 1"⟩]

/-- The source's `buttons` array: lines 17 (on button) and 18 (off button). -/
def buttons : List Gpio :=
  [⟨17, GpioFlags.GPIOF_IN, "LED 1 ON BUTTON"⟩,
   ⟨18, GpioFlags.GPIOF_IN, "LED 1 OFF BUTTON"⟩]

/-- `leds[0].gpio` (the LED line number, 4). -/
def ledLine : Nat := (leds.get ⟨0, by decide⟩).gpio

/-- `buttons[0].gpio` (the on-button line, 17). -/
def btn0Line : Nat := (buttons.get ⟨0, by decide⟩).gpio

/-- `buttons[1].gpio` (the off-button line, 18). -/
def btn1Line : Nat := (buttons.get ⟨1, by decide⟩).gpio

/-- Return type of an interrupt handler (`irqreturn_t`). -/
inductive Irqreturn
  | IRQ_NONE
  | IRQ_HANDLED
  deriving DecidableEq

/-- Observable effects of one `button_isr` invocation: the list of
`gpio_set_value(line, v)` calls it issues, the number of
`schedule_work` submissions, and its return value. -/
structure IsrResult where
  writes : List (Nat × Int)
  workSubmissions : Nat
  ret : Irqreturn
  deriving DecidableEq

/-- Shallow embedding of `button_isr(irq, data)`.  `t0`, `t1` are the
current values of `button_irqs[0]`, `button_irqs[1]`; `v` is the value
`gpio_get_value(leds[0].gpio)` reads.  The C body is
`if (irq == button_irqs[0] && !gpio_get_value(..)) gpio_set_value(.., 1);
else if (irq == button_irqs[1] && gpio_get_value(..)) gpio_set_value(.., 0);`
followed by an unconditional `schedule_work` and `return IRQ_HANDLED`. -/
def button_isr (irq t0 t1 v : Int) : IsrResult :=
  if irq = t0 ∧ v = 0 then
    ⟨[(ledLine, 1)], 1, Irqreturn.IRQ_HANDLED⟩
  else if irq = t1 ∧ v ≠ 0 then
    ⟨[(ledLine, 0)], 1, Irqreturn.IRQ_HANDLED⟩
  else
    ⟨[], 1, Irqreturn.IRQ_HANDLED⟩

/-- C2: the ISR's LED effect, case by case.  If the token matches
`button_irqs[0]` and the LED reads inactive, exactly one write of the
active value is issued; otherwise, if the token matches `button_irqs[1]`
and the LED reads active, exactly one write of the inactive value is
issued; in every other combination no write is issued. -/
theorem button_isr_led_write (irq t0 t1 v : Int) :
    (irq = t0 ∧ v = 0 → (button_isr irq t0 t1 v).writes = [(ledLine, 1)]) ∧
    (¬(irq = t0 ∧ v = 0) → irq = t1 ∧ v ≠ 0 →
      (button_isr irq t0 t1 v).writes = [(ledLine, 0)]) ∧
    (¬(irq = t0 ∧ v = 0) → ¬(irq = t1 ∧ v ≠ 0) →
      (button_isr irq t0 t1 v).writes = []) := by
  unfold button_isr
  refine ⟨?_, ?_, ?_⟩
  · intro h
    simp [h]
  · intro h1 h2
    simp [h1, h2]
  · intro h1 h2
    simp [h1, h2]

/-- Witness for `button_isr_led_write` at the on-button token with the LED
inactive. -/
theorem button_isr_led_write_witness :
    (button_isr 30 30 31 0).writes = [(ledLine, 1)] :=
  (button_isr_led_write 30 30 31 0).1 ⟨rfl, rfl⟩

/-- C5: every invocation of the ISR submits the deferred work unit exactly
once and returns `IRQ_HANDLED`, regardless of the token and of whether the
LED value changed. -/
theorem button_isr_always_schedules (irq t0 t1 v : Int) :
    (button_isr irq t0 t1 v).workSubmissions = 1 ∧
    (button_isr irq t0 t1 v).ret = Irqreturn.IRQ_HANDLED := by
  unfold button_isr
  split
  · exact ⟨rfl, rfl⟩
  · split
    · exact ⟨rfl, rfl⟩
    · exact ⟨rfl, rfl⟩

/-- C10 counterexample: with both stored tokens still at the sentinel `-1`
(their initial values) and the LED active, an invocation with token `-1`
does take the off-transition: the `else if` branch fires and writes the
inactive value, refuting the claim that only the on-branch can apply when
the token equals both stored tokens. -/
theorem button_isr_equal_tokens_off_write :
    (button_isr (-1) (-1) (-1) 1).writes = [(ledLine, 0)] := by decide

/-- C10 (amended): every invocation issues at most one LED write, and when
the supplied token equals both stored tokens, exactly one branch applies —
the on-transition if the LED reads inactive, the off-transition if it
reads active — never both in one invocation. -/
theorem button_isr_single_write (irq t0 t1 v : Int) :
    (button_isr irq t0 t1 v).writes.length ≤ 1 ∧
    (t0 = t1 → irq = t0 →
      ((v = 0 → (button_isr irq t0 t1 v).writes = [(ledLine, 1)]) ∧
       (v ≠ 0 → (button_isr irq t0 t1 v).writes = [(ledLine, 0)]))) := by
  unfold button_isr
  constructor
  · split
    · simp
    · split
      · simp
      · simp
  · intro hts hirq
    constructor
    · intro hv
      simp [hirq, hv]
    · intro hv
      simp [hirq, hts, hv]

/-- Witness for `button_isr_single_write` with both tokens equal to the
sentinel `-1` and the LED inactive. -/
theorem button_isr_single_write_witness :
    (button_isr (-1) (-1) (-1) 0).writes = [(ledLine, 1)] :=
  ((button_isr_single_write (-1) (-1) (-1) 0).2 rfl rfl).1 rfl

/-- A logical button event: "on" is an edge on the on-button line (its
token is `button_irqs[0]`), "off" an edge on the off-button line. -/
inductive BtnEvent
  | on
  | off
  deriving DecidableEq

/-- The interrupt token the platform supplies for each logical event. -/
def evIrq (t0 t1 : Int) : BtnEvent → Int
  | BtnEvent.on => t0
  | BtnEvent.off => t1

/-- The LED value after one ISR invocation: the last write the ISR issued
to the LED line, or the old value if it issued none. -/
def ledAfter (irq t0 t1 v : Int) : Int :=
  List.foldl (fun cur w => if w.1 = ledLine then w.2 else cur) v
    (button_isr irq t0 t1 v).writes

/-- The LED transition induced by the handler on one logical event. -/
def ledStep (t0 t1 v : Int) (e : BtnEvent) : Int :=
  ledAfter (evIrq t0 t1 e) t0 t1 v

/-- Fold of the handler's transition over an event sequence, also tracking
the last state-changing event (`none` if no event changed the state). -/
def ledRun (t0 t1 : Int) : Int → Option BtnEvent → List BtnEvent → Int × Option BtnEvent
  | v, l, [] => (v, l)
  | v, l, e :: es =>
      ledRun t0 t1 (ledStep t0 t1 v e)
        (if ledStep t0 t1 v e = v then l else some e) es

/-- With distinct tokens, an "on" event sets an inactive LED active and
leaves an active LED alone. -/
theorem ledStep_on (t0 t1 v : Int) (h : t0 ≠ t1) :
    ledStep t0 t1 v BtnEvent.on = if v = 0 then 1 else v := by
  unfold ledStep ledAfter evIrq button_isr
  by_cases hv : v = 0
  · simp [hv, ledLine, leds]
  · simp [hv, h]

/-- With distinct tokens, an "off" event sets an active LED inactive and
leaves an inactive LED alone. -/
theorem ledStep_off (t0 t1 v : Int) (h : t0 ≠ t1) :
    ledStep t0 t1 v BtnEvent.off = if v = 0 then v else 0 := by
  unfold ledStep ledAfter evIrq button_isr
  by_cases hv : v = 0
  · simp [hv, Ne.symm h]
  · simp [hv, Ne.symm h, ledLine, leds]

/-- Invariant of the fold: the LED is active exactly when the last
state-changing event so far was "on". -/
theorem ledRun_invariant (t0 t1 : Int) (h : t0 ≠ t1) :
    ∀ (evs : List BtnEvent) (v : Int) (l : Option BtnEvent),
      (v ≠ 0 ↔ l = some BtnEvent.on) →
      ((ledRun t0 t1 v l evs).1 ≠ 0 ↔ (ledRun t0 t1 v l evs).2 = some BtnEvent.on) := by
  intro evs
  induction evs with
  | nil =>
      intro v l hinv
      simpa [ledRun] using hinv
  | cons e es ih =>
      intro v l hinv
      cases e
      · by_cases hv : v = 0
        · have hstep : ledStep t0 t1 v BtnEvent.on = 1 := by
            rw [ledStep_on t0 t1 v h]
            simp [hv]
          have hne : ¬(ledStep t0 t1 v BtnEvent.on = v) := by
            rw [hstep, hv]
            decide
          simp only [ledRun, if_neg hne]
          exact ih _ _ (by rw [hstep]; simp)
        · have hstep : ledStep t0 t1 v BtnEvent.on = v := by
            rw [ledStep_on t0 t1 v h]
            simp [hv]
          simp only [ledRun, if_pos hstep, hstep]
          exact ih _ _ hinv
      · by_cases hv : v = 0
        · have hstep : ledStep t0 t1 v BtnEvent.off = v := by
            rw [ledStep_off t0 t1 v h]
            simp [hv]
          simp only [ledRun, if_pos hstep, hstep]
          exact ih _ _ hinv
        · have hstep : ledStep t0 t1 v BtnEvent.off = 0 := by
            rw [ledStep_off t0 t1 v h]
            simp [hv]
          have hne : ¬(ledStep t0 t1 v BtnEvent.off = v) := by
            rw [hstep]
            exact fun hc => hv hc.symm
          simp only [ledRun, if_neg hne]
          refine ih _ _ ?_
          rw [hstep]
          simp

/-- C3: with the two button tokens distinct (as after a successful
initialisation), folding the handler's transition over any finite event
sequence from the initial inactive LED yields an active LED exactly when
the last state-changing event was "on" (inactive otherwise, in particular
when no event changed the state); and every (state, event) pair other than
(inactive, on) and (active, off) is a self-loop. -/
theorem led_state_machine (t0 t1 : Int) (h : t0 ≠ t1) (evs : List BtnEvent) :
    ((ledRun t0 t1 0 none evs).1 ≠ 0 ↔
      (ledRun t0 t1 0 none evs).2 = some BtnEvent.on) ∧
    (∀ (v : Int) (e : BtnEvent),
      ¬(v = 0 ∧ e = BtnEvent.on) → ¬(v ≠ 0 ∧ e = BtnEvent.off) →
      ledStep t0 t1 v e = v) := by
  constructor
  · exact ledRun_invariant t0 t1 h evs 0 none (by simp)
  · intro v e h1 h2
    cases e
    · rw [ledStep_on t0 t1 v h]
      have hv : ¬(v = 0) := fun hc => h1 ⟨hc, rfl⟩
      simp [hv]
    · rw [ledStep_off t0 t1 v h]
      have hv : v = 0 := by
        by_contra hc
        exact h2 ⟨hc, rfl⟩
      simp [hv]

/-- Witness for `led_state_machine` at tokens 30, 31 and the sequence
on, off, on: the final LED is active and the last change was "on". -/
theorem led_state_machine_witness :
    (ledRun 30 31 0 none [BtnEvent.on, BtnEvent.off, BtnEvent.on]).1 ≠ 0 ↔
      (ledRun 30 31 0 none [BtnEvent.on, BtnEvent.off, BtnEvent.on]).2 =
        some BtnEvent.on :=
  (led_state_machine 30 31 (by decide) [BtnEvent.on, BtnEvent.off, BtnEvent.on]).1

/-- Kernel IRQ trigger-flag constants (`linux/interrupt.h`). -/
def IRQF_TRIGGER_RISING : Nat := 1

/-- Kernel IRQ trigger-flag constant for the falling edge. -/
def IRQF_TRIGGER_FALLING : Nat := 2

/-- The flag argument both `request_irq` calls in the source pass:
`IRQF_TRIGGER_RISING | IRQF_TRIGGER_FALLING`. -/
def bothEdges : Nat := IRQF_TRIGGER_RISING ||| IRQF_TRIGGER_FALLING

/-- One resource-affecting collaborator call, as recorded in a trace. -/
inductive ResEvent
  | gpioRequest (line : Nat)
  | gpioFree (line : Nat)
  | irqRequest (line : Nat) (tok : Int) (flags : Nat)
  | irqFree (tok : Int)
  | setValue (line : Nat) (v : Int)
  deriving DecidableEq

/-- Results the external collaborators return to one `bottomhalf_init`
run: `0` means success for the request calls; a negative value for the
`gpio_to_irq` fields means failure, a non-negative value is the token. -/
structure InitEnv where
  reqLeds : Int
  reqBtn0 : Int
  reqBtn1 : Int
  reqBtns : Int
  toIrq0 : Int
  toIrq1 : Int
  reqIrq0 : Int
  reqIrq1 : Int
  deriving DecidableEq

/-- Trace of a successful `gpio_request_array(arr, n)`: each of the first
`n` entries is requested. -/
def gpioRequestArrayTrace (arr : List Gpio) (n : Nat) : List ResEvent :=
  (arr.take n).map (fun g => ResEvent.gpioRequest g.gpio)

/-- Trace of `gpio_free_array(arr, n)`: each of the first `n` entries is
freed. -/
def gpioFreeArrayTrace (arr : List Gpio) (n : Nat) : List ResEvent :=
  (arr.take n).map (fun g => ResEvent.gpioFree g.gpio)

/-- Rollback label `fail1` of the `NO_GPIO_REQUEST_ARRAY` variant:
`gpio_free(leds[0].gpio)`. -/
def failA1 : List ResEvent := [ResEvent.gpioFree ledLine]

/-- Rollback label `fail2` of the `NO_GPIO_REQUEST_ARRAY` variant:
`gpio_free(buttons[0].gpio)` then falls through to `fail1`. -/
def failA2 : List ResEvent := ResEvent.gpioFree btn0Line :: failA1

/-- Rollback label `fail3` of the `NO_GPIO_REQUEST_ARRAY` variant:
`gpio_free(buttons[1].gpio)` then falls through to `fail2`. -/
def failA3 : List ResEvent := ResEvent.gpioFree btn1Line :: failA2

/-- Rollback label `fail4` of the `NO_GPIO_REQUEST_ARRAY` variant:
`free_irq(button_irqs[0], NULL)` then falls through to `fail3`.  `t0` is
the value `button_irqs[0]` holds at that point. -/
def failA4 (t0 : Int) : List ResEvent := ResEvent.irqFree t0 :: failA3

/-- Rollback label `fail1` of the array variant:
`gpio_free_array(leds, ARRAY_SIZE(leds))`. -/
def failB1 : List ResEvent := gpioFreeArrayTrace leds leds.length

/-- Rollback label `fail2` of the array variant:
`gpio_free_array(buttons, ARRAY_SIZE(leds))` — note the source passes
`ARRAY_SIZE(leds)`, not `ARRAY_SIZE(buttons)` — then falls through to
`fail1`. -/
def failB2 : List ResEvent := gpioFreeArrayTrace buttons leds.length ++ failB1

/-- Rollback label `fail3` of the array variant:
`free_irq(button_irqs[0], NULL)` then falls through to `fail2`. -/
def failB3 (t0 : Int) : List ResEvent := ResEvent.irqFree t0 :: failB2

/-- Shallow embedding of `bottomhalf_init` in the `NO_GPIO_REQUEST_ARRAY`
variant (kernel >= 6.10.0): per-line `gpio_request` calls.  Returns the
trace of resource events the run issues and the function's return value.
The `goto` targets are exactly those of the source: the second
`gpio_to_irq` failure jumps to `fail3`, the second `request_irq` failure
to `fail4`. -/
def bottomhalf_init_single (env : InitEnv) : List ResEvent × Int :=
  if env.reqLeds ≠ 0 then ([], env.reqLeds)
  else if env.reqBtn0 ≠ 0 then
    ([ResEvent.gpioRequest ledLine] ++ failA1, env.reqBtn0)
  else if env.reqBtn1 ≠ 0 then
    ([ResEvent.gpioRequest ledLine, ResEvent.gpioRequest btn0Line] ++ failA2,
     env.reqBtn1)
  else if env.toIrq0 < 0 then
    ([ResEvent.gpioRequest ledLine, ResEvent.gpioRequest btn0Line,
      ResEvent.gpioRequest btn1Line] ++ failA3, env.toIrq0)
  else if env.reqIrq0 ≠ 0 then
    ([ResEvent.gpioRequest ledLine, ResEvent.gpioRequest btn0Line,
      ResEvent.gpioRequest btn1Line] ++ failA3, env.reqIrq0)
  else if env.toIrq1 < 0 then
    ([ResEvent.gpioRequest ledLine, ResEvent.gpioRequest btn0Line,
      ResEvent.gpioRequest btn1Line,
      ResEvent.irqRequest btn0Line env.toIrq0 bothEdges] ++ failA3, env.toIrq1)
  else if env.reqIrq1 ≠ 0 then
    ([ResEvent.gpioRequest ledLine, ResEvent.gpioRequest btn0Line,
      ResEvent.gpioRequest btn1Line,
      ResEvent.irqRequest btn0Line env.toIrq0 bothEdges] ++ failA4 env.toIrq0,
     env.reqIrq1)
  else
    ([ResEvent.gpioRequest ledLine, ResEvent.gpioRequest btn0Line,
      ResEvent.gpioRequest btn1Line,
      ResEvent.irqRequest btn0Line env.toIrq0 bothEdges,
      ResEvent.irqRequest btn1Line env.toIrq1 bothEdges], 0)

/-- Shallow embedding of `bottomhalf_init` in the array variant
(kernel < 6.10.0): `gpio_request_array` calls.  The `goto` targets are
exactly those of the source: the second `gpio_to_irq` failure jumps to
`fail2`, the second `request_irq` failure to `fail3`. -/
def bottomhalf_init_array (env : InitEnv) : List ResEvent × Int :=
  if env.reqLeds ≠ 0 then ([], env.reqLeds)
  else if env.reqBtns ≠ 0 then
    (gpioRequestArrayTrace leds leds.length ++ failB1, env.reqBtns)
  else if env.toIrq0 < 0 then
    (gpioRequestArrayTrace leds leds.length ++
      gpioRequestArrayTrace buttons buttons.length ++ failB2, env.toIrq0)
  else if env.reqIrq0 ≠ 0 then
    (gpioRequestArrayTrace leds leds.length ++
      gpioRequestArrayTrace buttons buttons.length ++ failB2, env.reqIrq0)
  else if env.toIrq1 < 0 then
    (gpioRequestArrayTrace leds leds.length ++
      gpioRequestArrayTrace buttons buttons.length ++
      [ResEvent.irqRequest btn0Line env.toIrq0 bothEdges] ++ failB2,
     env.toIrq1)
  else if env.reqIrq1 ≠ 0 then
    (gpioRequestArrayTrace leds leds.length ++
      gpioRequestArrayTrace buttons buttons.length ++
      [ResEvent.irqRequest btn0Line env.toIrq0 bothEdges] ++
      failB3 env.toIrq0, env.reqIrq1)
  else
    (gpioRequestArrayTrace leds leds.length ++
      gpioRequestArrayTrace buttons buttons.length ++
      [ResEvent.irqRequest btn0Line env.toIrq0 bothEdges,
       ResEvent.irqRequest btn1Line env.toIrq1 bothEdges], 0)

/-- Trace of `bottomhalf_exit` in the `NO_GPIO_REQUEST_ARRAY` variant:
free both irqs, set the LED low, free the three lines one by one. -/
def bottomhalf_exit_single (t0 t1 : Int) : List ResEvent :=
  [ResEvent.irqFree t0, ResEvent.irqFree t1,
   ResEvent.setValue ledLine 0,
   ResEvent.gpioFree ledLine, ResEvent.gpioFree btn0Line,
   ResEvent.gpioFree btn1Line]

/-- Trace of `bottomhalf_exit` in the array variant: free both irqs, set
each LED low, `gpio_free_array` on both arrays with their own sizes. -/
def bottomhalf_exit_array (t0 t1 : Int) : List ResEvent :=
  [ResEvent.irqFree t0, ResEvent.irqFree t1] ++
    leds.map (fun g => ResEvent.setValue g.gpio 0) ++
    gpioFreeArrayTrace leds leds.length ++
    gpioFreeArrayTrace buttons buttons.length

/-- Resource-accounting state: acquired lines in acquisition order,
live interrupt registrations as (backing line, token) pairs, and the
LED line's current value. -/
structure ResState where
  lines : List Nat
  irqs : List (Nat × Int)
  ledVal : Int
  deriving DecidableEq

/-- Effect of one resource event on the accounting state. -/
def applyEv : ResState → ResEvent → ResState
  | ⟨ls, irqs, v⟩, ResEvent.gpioRequest n => ⟨ls ++ [n], irqs, v⟩
  | ⟨ls, irqs, v⟩, ResEvent.gpioFree n => ⟨ls.filter (fun m => m != n), irqs, v⟩
  | ⟨ls, irqs, v⟩, ResEvent.irqRequest n t _ => ⟨ls, irqs ++ [(n, t)], v⟩
  | ⟨ls, irqs, v⟩, ResEvent.irqFree t => ⟨ls, irqs.filter (fun p => p.2 != t), v⟩
  | ⟨ls, irqs, v⟩, ResEvent.setValue n w =>
      if n = ledLine then ⟨ls, irqs, w⟩ else ⟨ls, irqs, v⟩

/-- Run a trace of resource events from a starting state. -/
def runTrace (s : ResState) (tr : List ResEvent) : ResState :=
  tr.foldl applyEv s

/-- True when no `gpioFree` in the trace frees a line that still has a
live interrupt registration at that point. -/
def noLiveFree : ResState → List ResEvent → Bool
  | _, [] => true
  | s, e :: es =>
      (match e with
       | ResEvent.gpioFree n => s.irqs.all (fun p => p.1 != n)
       | _ => true) && noLiveFree (applyEv s e) es

/-- The interrupt registrations a trace performs, in order, as
(backing line, token, flags) triples. -/
def irqReqs (tr : List ResEvent) : List (Nat × Int × Nat) :=
  tr.filterMap (fun e =>
    match e with
    | ResEvent.irqRequest n t f => some (n, t, f)
    | _ => none)

/-- C1: evaluating `bottomhalf_init` at the failing step in which mapping
the second button line to an interrupt fails (here `gpio_to_irq` returns
`-22`) after every earlier step succeeded (token 30 for the first button):
in both variants the first button's interrupt registration is NOT
released — the rollback jumps past `free_irq` — and in the array variant
button line 18 is not released either (the rollback frees only
`ARRAY_SIZE(leds)` button entries).  The function does return the
originating error code, but resources leak, contrary to the claim. -/
theorem init_rollback_leaks_irq :
    (runTrace ⟨[], [], 0⟩
        (bottomhalf_init_single ⟨0, 0, 0, 0, 30, -22, 0, 0⟩).1).irqs = [(17, 30)] ∧
    (bottomhalf_init_single ⟨0, 0, 0, 0, 30, -22, 0, 0⟩).2 = -22 ∧
    (runTrace ⟨[], [], 0⟩
        (bottomhalf_init_single ⟨0, 0, 0, 0, 30, -22, 0, 0⟩).1).lines = [] ∧
    (runTrace ⟨[], [], 0⟩
        (bottomhalf_init_array ⟨0, 0, 0, 0, 30, -22, 0, 0⟩).1).irqs = [(17, 30)] ∧
    (runTrace ⟨[], [], 0⟩
        (bottomhalf_init_array ⟨0, 0, 0, 0, 30, -22, 0, 0⟩).1).lines = [18] ∧
    (bottomhalf_init_array ⟨0, 0, 0, 0, 30, -22, 0, 0⟩).2 = -22 := by
  decide

/-- C6: on the rollback path where mapping the second button line to an
interrupt fails after the first button's handler was registered, both
variants free GPIO lines while the first button's interrupt registration
is still live — the unregister-before-release ordering is violated. -/
theorem line_freed_with_live_irq :
    noLiveFree ⟨[], [], 0⟩
      (bottomhalf_init_single ⟨0, 0, 0, 0, 30, -22, 0, 0⟩).1 = false ∧
    noLiveFree ⟨[], [], 0⟩
      (bottomhalf_init_array ⟨0, 0, 0, 0, 30, -22, 0, 0⟩).1 = false := by
  decide

/-- C9: on every successful run of `bottomhalf_init` (either variant),
exactly two interrupt registrations are performed — one backed by button
line 17 with the first token, one backed by button line 18 with the
second — and both pass `IRQF_TRIGGER_RISING | IRQF_TRIGGER_FALLING`, a
flag word with both the rising and the falling trigger bits set. -/
theorem irq_registered_both_edges (env : InitEnv)
    (hA : (bottomhalf_init_single env).2 = 0)
    (hB : (bottomhalf_init_array env).2 = 0) :
    irqReqs (bottomhalf_init_single env).1 =
      [(btn0Line, env.toIrq0, bothEdges), (btn1Line, env.toIrq1, bothEdges)] ∧
    irqReqs (bottomhalf_init_array env).1 =
      [(btn0Line, env.toIrq0, bothEdges), (btn1Line, env.toIrq1, bothEdges)] ∧
    bothEdges &&& IRQF_TRIGGER_RISING ≠ 0 ∧
    bothEdges &&& IRQF_TRIGGER_FALLING ≠ 0 := by
  refine ⟨?_, ?_, by decide, by decide⟩
  · unfold bottomhalf_init_single at hA ⊢
    split_ifs at hA ⊢ <;>
      first
        | exact absurd hA (by assumption)
        | omega
        | rfl
  · unfold bottomhalf_init_array at hB ⊢
    split_ifs at hB ⊢ <;>
      first
        | exact absurd hB (by assumption)
        | omega
        | rfl

/-- Witness for `irq_registered_both_edges` at a run where every step
succeeds with tokens 30 and 31. -/
theorem irq_registered_both_edges_witness :
    irqReqs (bottomhalf_init_single ⟨0, 0, 0, 0, 30, 31, 0, 0⟩).1 =
      [(btn0Line, 30, bothEdges), (btn1Line, 31, bothEdges)] ∧
    irqReqs (bottomhalf_init_array ⟨0, 0, 0, 0, 30, 31, 0, 0⟩).1 =
      [(btn0Line, 30, bothEdges), (btn1Line, 31, bothEdges)] ∧
    bothEdges &&& IRQF_TRIGGER_RISING ≠ 0 ∧
    bothEdges &&& IRQF_TRIGGER_FALLING ≠ 0 :=
  irq_registered_both_edges ⟨0, 0, 0, 0, 30, 31, 0, 0⟩ (by decide) (by decide)

/-- C4: after a successful `bottomhalf_init` with tokens `t0`, `t1` (both
non-negative, as `gpio_to_irq` returns on success) and any LED value `v`,
running `bottomhalf_exit` leaves the LED value inactive (0), no interrupt
registration live, and no GPIO line held — in both variants — and during
the teardown no line is ever freed while a registration on it is live
(the irqs are unregistered first, then the LED forced low, then the lines
released). -/
theorem shutdown_after_init (t0 t1 v : Int) (h0 : 0 ≤ t0) (h1 : 0 ≤ t1) :
    (bottomhalf_init_single ⟨0, 0, 0, 0, t0, t1, 0, 0⟩).2 = 0 ∧
    (bottomhalf_init_array ⟨0, 0, 0, 0, t0, t1, 0, 0⟩).2 = 0 ∧
    (runTrace
        (runTrace ⟨[], [], v⟩ (bottomhalf_init_single ⟨0, 0, 0, 0, t0, t1, 0, 0⟩).1)
        (bottomhalf_exit_single t0 t1)) = ⟨[], [], 0⟩ ∧
    (runTrace
        (runTrace ⟨[], [], v⟩ (bottomhalf_init_array ⟨0, 0, 0, 0, t0, t1, 0, 0⟩).1)
        (bottomhalf_exit_array t0 t1)) = ⟨[], [], 0⟩ ∧
    noLiveFree
      (runTrace ⟨[], [], v⟩ (bottomhalf_init_single ⟨0, 0, 0, 0, t0, t1, 0, 0⟩).1)
      (bottomhalf_exit_single t0 t1) = true ∧
    noLiveFree
      (runTrace ⟨[], [], v⟩ (bottomhalf_init_array ⟨0, 0, 0, 0, t0, t1, 0, 0⟩).1)
      (bottomhalf_exit_array t0 t1) = true := by
  have ht0 : ¬(t0 < 0) := not_lt.mpr h0
  have ht1 : ¬(t1 < 0) := not_lt.mpr h1
  by_cases ht : t1 = t0 <;>
    simp [bottomhalf_init_single, bottomhalf_init_array,
      bottomhalf_exit_single, bottomhalf_exit_array, ht0, ht1, ht,
      runTrace, applyEv, noLiveFree, failA1, failA2, failA3, failA4,
      failB1, failB2, failB3, gpioRequestArrayTrace, gpioFreeArrayTrace,
      ledLine, btn0Line, btn1Line, leds, buttons]

/-- Witness for `shutdown_after_init` at tokens 30, 31 and an active LED. -/
theorem shutdown_after_init_witness :
    (bottomhalf_init_single ⟨0, 0, 0, 0, 30, 31, 0, 0⟩).2 = 0 ∧
    (bottomhalf_init_array ⟨0, 0, 0, 0, 30, 31, 0, 0⟩).2 = 0 ∧
    (runTrace
        (runTrace ⟨[], [], 1⟩ (bottomhalf_init_single ⟨0, 0, 0, 0, 30, 31, 0, 0⟩).1)
        (bottomhalf_exit_single 30 31)) = ⟨[], [], 0⟩ ∧
    (runTrace
        (runTrace ⟨[], [], 1⟩ (bottomhalf_init_array ⟨0, 0, 0, 0, 30, 31, 0, 0⟩).1)
        (bottomhalf_exit_array 30 31)) = ⟨[], [], 0⟩ ∧
    noLiveFree
      (runTrace ⟨[], [], 1⟩ (bottomhalf_init_single ⟨0, 0, 0, 0, 30, 31, 0, 0⟩).1)
      (bottomhalf_exit_single 30 31) = true ∧
    noLiveFree
      (runTrace ⟨[], [], 1⟩ (bottomhalf_init_array ⟨0, 0, 0, 0, 30, 31, 0, 0⟩).1)
      (bottomhalf_exit_array 30 31) = true :=
  shutdown_after_init 30 31 1 (by decide) (by decide)

/-- Direction a GPIO line is configured with. -/
inductive GpioDir
  | input
  | output
  deriving DecidableEq

/-- Configuration a line acquisition call establishes: whether the line
was requested, and the direction and output value it configured, if any. -/
structure LineCfg where
  requested : Bool
  direction : Option GpioDir
  value : Option Int
  deriving DecidableEq

/-- Configuration established by `gpio_request(gpio, label)`.  The call
site passes only `leds[0].gpio` and `leds[0].label`; the function has no
flags parameter, so it requests the line but configures neither a
direction nor an output value. -/
def gpio_request_cfg : LineCfg := ⟨true, none, none⟩

/-- Configuration established for one entry by `gpio_request_array` (via
`gpio_request_one`): the entry's flags are applied — `GPIOF_IN` configures
input, `GPIOF_OUT_INIT_LOW` output with initial value 0,
`GPIOF_OUT_INIT_HIGH` output with initial value 1. -/
def gpio_request_one_cfg (f : GpioFlags) : LineCfg :=
  match f with
  | GpioFlags.GPIOF_IN => ⟨true, some GpioDir.input, none⟩
  | GpioFlags.GPIOF_OUT_INIT_LOW => ⟨true, some GpioDir.output, some 0⟩
  | GpioFlags.GPIOF_OUT_INIT_HIGH => ⟨true, some GpioDir.output, some 1⟩

/-- LED acquisition in the `NO_GPIO_REQUEST_ARRAY` variant:
`gpio_request(leds[0].gpio, leds[0].label)`. -/
def ledAcquireSingle : LineCfg := gpio_request_cfg

/-- LED acquisition in the array variant:
`gpio_request_array(leds, ARRAY_SIZE(leds))` applied to `leds[0]`. -/
def ledAcquireArray : LineCfg :=
  gpio_request_one_cfg (leds.get ⟨0, by decide⟩).flags

/-- C8: in the array variant the LED line is configured at acquisition as
an output with the inactive (low) value, but in the
`NO_GPIO_REQUEST_ARRAY` variant the acquisition call carries no flags, so
it configures neither direction nor value — `leds[0].flags =
GPIOF_OUT_INIT_LOW` is never applied there, refuting the claim that the
output-low configuration holds in both conditional-compilation variants. -/
theorem led_initial_config :
    ledAcquireArray = ⟨true, some GpioDir.output, some 0⟩ ∧
    ledAcquireSingle.direction = none ∧
    ledAcquireSingle.value = none := by
  decide

/-- A call to an external collaborator, as issued by the handler bodies. -/
inductive KernelCall
  | gpio_get_value (line : Nat)
  | gpio_set_value (line : Nat) (v : Int)
  | schedule_work
  | msleep (ms : Nat)
  | pr_info
  deriving DecidableEq

/-- Modelled from the spec: whether a boundary collaborator call may
block, sleep or allocate in the calling context.  `msleep` sleeps; the
GPIO value accessors, `schedule_work` and `pr_info` are the non-sleeping,
interrupt-context-safe primitives, per the spec's external-interface
contract (section 6) and the kernel API they stand for. -/
def canSleep : KernelCall → Bool
  | KernelCall.msleep _ => true
  | _ => false

/-- Collaborator calls made while evaluating the `else if` arm of
`button_isr`, with C short-circuit evaluation: `gpio_get_value` runs only
if the token comparison succeeded, `gpio_set_value` only if the read
value was active. -/
def elseBranchCalls (irq t1 v : Int) : List KernelCall :=
  if irq = t1 then
    KernelCall.gpio_get_value ledLine ::
      (if v ≠ 0 then [KernelCall.gpio_set_value ledLine 0] else [])
  else []

/-- All collaborator calls one `button_isr` invocation makes, in order:
the short-circuit evaluation of the two guarded writes, then the
unconditional `schedule_work`. -/
def button_isr_calls (irq t0 t1 v : Int) : List KernelCall :=
  (if irq = t0 then
     KernelCall.gpio_get_value ledLine ::
       (if v = 0 then [KernelCall.gpio_set_value ledLine 1]
        else elseBranchCalls irq t1 v)
   else elseBranchCalls irq t1 v) ++ [KernelCall.schedule_work]

/-- Collaborator calls of `bottomhalf_work_fn`: log, a 500 ms blocking
delay, log. -/
def bottomhalf_work_fn_calls : List KernelCall :=
  [KernelCall.pr_info, KernelCall.msleep 500, KernelCall.pr_info]

/-- C7: no collaborator call the interrupt handler makes — for any token,
stored tokens and LED value — can sleep or block, and the blocking delay
(`msleep 500`) occurs in the deferred work body. -/
theorem isr_never_blocks :
    (∀ (irq t0 t1 v : Int) (c : KernelCall),
      c ∈ button_isr_calls irq t0 t1 v → canSleep c = false) ∧
    KernelCall.msleep 500 ∈ bottomhalf_work_fn_calls := by
  constructor
  · intro irq t0 t1 v c hc
    cases c <;> try rfl
    exfalso
    unfold button_isr_calls elseBranchCalls at hc
    split_ifs at hc <;> simp at hc
  · simp [bottomhalf_work_fn_calls]

/-- Witness for `isr_never_blocks`: the LED write the handler issues on
the on-transition is a non-sleeping call. -/
theorem isr_never_blocks_witness :
    canSleep (KernelCall.gpio_set_value ledLine 1) = false :=
  isr_never_blocks.1 30 30 31 0 (KernelCall.gpio_set_value ledLine 1)
    (by decide)
